import Mathlib

/-!
Shallow embedding of the conversation session/service layer of the
geicue-widget repository.

Embedded source:
* `src/conversationService.js` — the `ConversationService` class
  (Session Identity, Transport Client, Fallback Responder), namespace
  `ConversationService` below;
* `src/Widget.jsx`, the `useConversation` hook — the Conversation State
  Machine (message history, loading flag, conversation-mode flag),
  namespace `UseConversation` below.

Network effects are embedded by passing the observable outcome of each
`fetch` as an explicit argument (`FetchOutcome`, `StartOutcome`,
`ClearOutcome`); JavaScript exceptions are embedded as `Except`;
`Date.now()` / `toISOString()` are passed in as an `Env`.
-/

namespace GeicueWidget

/-- Character-list prefix test: `hasPrefixC hay needle` is true when `needle`
is an initial segment of `hay`. Helper for the JS `String.prototype.includes`
embedding. -/
def hasPrefixC : List Char → List Char → Bool
  | _, [] => true
  | [], _ :: _ => false
  | a :: hay, b :: needle => a == b && hasPrefixC hay needle

/-- Substring occurrence test: JS `hay.includes(needle)` on the underlying
character lists. -/
def hasSubC : List Char → List Char → Bool
  | [], needle => needle.isEmpty
  | a :: hay, needle => hasPrefixC (a :: hay) needle || hasSubC hay needle

/-- JS `s.includes(sub)` for strings. -/
def jsIncludes (s sub : String) : Bool := hasSubC s.data sub.data

/-- JS `s.toLowerCase()` (ASCII case folding, which covers every keyword of
the fallback rule table). -/
def jsToLower (s : String) : String := String.mk (s.data.map Char.toLower)

/-- JS `s.trim()`: the string with leading and trailing whitespace removed,
on the underlying character list. -/
def jsTrim (s : String) : List Char :=
  ((s.data.dropWhile Char.isWhitespace).reverse.dropWhile Char.isWhitespace).reverse

/-- JS `x || y` for an optional string `x`: `y` when `x` is absent
(`undefined`/`null`) or falsy (the empty string), otherwise the string
itself. -/
def jsOrString (x : Option String) (y : String) : String :=
  match x with
  | some s => if s.isEmpty then y else s
  | none => y

/-! ### Fixed texts of `src/conversationService.js` and `src/Widget.jsx` -/

/-- Reply of the help/support rule of `getFallbackResponse`. -/
def supportText : String :=
  "I'm here to help! I can assist you with technical issues, product questions, or general support. What would you like to know?"

/-- Reply of the payment/billing rule of `getFallbackResponse`. -/
def paymentText : String :=
  "I understand you're having payment issues. Let me help you troubleshoot. Can you tell me more about what's happening?"

/-- Reply of the error/problem rule of `getFallbackResponse`. -/
def errorText : String :=
  "I see you're experiencing an issue. I've detected some technical problems on this page. Let me help you resolve them."

/-- Reply of the feature/request rule of `getFallbackResponse`. -/
def featureText : String :=
  "Thank you for your feature request! I'll make sure this gets to our development team. Can you provide more details?"

/-- Reply of the bug/issue rule of `getFallbackResponse`. -/
def bugText : String :=
  "I'm sorry to hear you're experiencing a bug. Let me help you report this issue. Can you describe what happened?"

/-- Generic acknowledgment returned by `getFallbackResponse` when no keyword
matches. -/
def genericText : String :=
  "Thank you for your message. I'm here to help improve your experience. Is there anything specific you'd like to discuss?"

/-- Fixed string returned by `ConversationService.sendMessage` when the
response body carries neither `response` nor `message`. -/
def couldNotProcessText : String := "I'm sorry, I couldn't process your request."

/-- Fixed apology appended by the `useConversation` hook's catch branch. -/
def apologyText : String :=
  "I'm sorry, I'm having trouble connecting right now. Please try again in a moment."

/-- Default greeting of `ConversationService.startConversation`. -/
def defaultGreeting : String := "Hello! I'm your AI assistant. How can I help you today?"

/-! ### Transport model -/

/-- Error thrown inside the Transport Client: a network-level failure of
`fetch`, the `HTTP error! status: s` throw on a non-ok status, or a JSON
parse failure of `response.json()`. -/
inductive TransportError where
  | network : TransportError
  | http : Nat → TransportError
  | parse : TransportError
deriving DecidableEq, Repr

/-- Observable fields of a parsed `/chat` response body: the `response` and
`message` fields, each possibly absent. -/
structure ChatBody where
  response : Option String
  message : Option String
deriving DecidableEq, Repr

/-- Outcome of the `fetch` to `{base}/chat`: network failure, or an HTTP
reply with a status and a body (`none` = body that fails to parse as JSON). -/
inductive FetchOutcome where
  | netFail : FetchOutcome
  | reply : Nat → Option ChatBody → FetchOutcome
deriving DecidableEq, Repr

/-- JS `Response.ok`: status in the inclusive range 200–299. -/
def statusOk (s : Nat) : Bool := 200 ≤ s && s ≤ 299

/-- The body of `ConversationService.sendMessage`'s `try` block up to and
including `response.json()`: throws on network failure, throws
`TransportError.http status` when `!response.ok`, throws on a malformed
body, otherwise yields the parsed body. -/
def fetchChat : FetchOutcome → Except TransportError ChatBody
  | .netFail => .error .network
  | .reply status body =>
    if statusOk status then
      match body with
      | some data => .ok data
      | none => .error .parse
    else .error (.http status)

/-- Reply extraction of `ConversationService.sendMessage` on a parsed body:
`data.response || data.message || "I'm sorry, I couldn't process your
request."`. -/
def extractReply (data : ChatBody) : String :=
  jsOrString data.response (jsOrString data.message couldNotProcessText)

namespace ConversationService

/-- The `getFallbackResponse(message)` method: lowercases the message and
walks the fixed keyword rules in source order, first match wins. -/
def getFallbackResponse (message : String) : String :=
  let lowerMessage := jsToLower message
  if jsIncludes lowerMessage "help" || jsIncludes lowerMessage "support" then
    supportText
  else if jsIncludes lowerMessage "payment" || jsIncludes lowerMessage "billing" then
    paymentText
  else if jsIncludes lowerMessage "error" || jsIncludes lowerMessage "problem" then
    errorText
  else if jsIncludes lowerMessage "feature" || jsIncludes lowerMessage "request" then
    featureText
  else if jsIncludes lowerMessage "bug" || jsIncludes lowerMessage "issue" then
    bugText
  else
    genericText

/-- The `sendMessage(message, context)` method as its caller sees it: the
`try` block runs `fetchChat` and extracts the reply; the `catch` block
returns `getFallbackResponse(message)` normally. -/
def sendMessage (message : String) (o : FetchOutcome) : Except TransportError String :=
  match fetchChat o with
  | .ok data => .ok (extractReply data)
  | .error _ => .ok (getFallbackResponse message)

end ConversationService

/-! ### `startConversation` / `clearConversation` transport -/

/-- Observable fields of a parsed `/conversation/start` response body. -/
structure StartBody where
  welcome_message : Option String
deriving DecidableEq, Repr

/-- Outcome of the `fetch` to `{base}/conversation/start`. -/
inductive StartOutcome where
  | netFail : StartOutcome
  | reply : Nat → Option StartBody → StartOutcome
deriving DecidableEq, Repr

/-- The `try` block of `ConversationService.startConversation` up to and
including `response.json()`. -/
def fetchStart : StartOutcome → Except TransportError StartBody
  | .netFail => .error .network
  | .reply status body =>
    if statusOk status then
      match body with
      | some data => .ok data
      | none => .error .parse
    else .error (.http status)

/-- Outcome of the `fetch` to `{base}/conversation/clear`; the source never
inspects the response, so only network failure vs. an HTTP reply matters. -/
inductive ClearOutcome where
  | netFail : ClearOutcome
  | reply : Nat → ClearOutcome
deriving DecidableEq, Repr

/-- The `try` block of `ConversationService.clearConversation`: the awaited
`fetch` throws only on network failure (no `response.ok` check in source). -/
def fetchClear : ClearOutcome → Except TransportError Unit
  | .netFail => .error .network
  | .reply _ => .ok ()

namespace ConversationService

/-- The `startConversation(context)` method as its caller sees it: on a
parsed body, `data.welcome_message || default`; the `catch` block returns
the default greeting normally. -/
def startConversation (o : StartOutcome) : Except TransportError String :=
  match fetchStart o with
  | .ok data => .ok (jsOrString data.welcome_message defaultGreeting)
  | .error _ => .ok defaultGreeting

/-- The `clearConversation()` method as its caller sees it: the `catch`
block swallows every failure (logs and returns). -/
def clearConversation (o : ClearOutcome) : Except TransportError Unit :=
  match fetchClear o with
  | .ok _ => .ok ()
  | .error _ => .ok ()

end ConversationService

/-! ### Conversation State Machine (`useConversation` in `src/Widget.jsx`) -/

/-- A message of the hook's history: `{id, type, content, timestamp}` with
`type` one of `"user"` / `"ai"`. -/
structure Message where
  id : Nat
  type : String
  content : String
  timestamp : String
deriving DecidableEq, Repr

/-- The hook's state: `messages`, `isLoading`, `conversationMode`. -/
structure ConvState where
  messages : List Message
  isLoading : Bool
  conversationMode : Bool
deriving DecidableEq, Repr

/-- Ambient clock values read during one `sendMessage`/`startConversation`
invocation: `Date.now()` and `new Date().toISOString()`. -/
structure Env where
  now : Nat
  ts : String
deriving DecidableEq, Repr

/-- The user `Message` built at the top of the hook's `sendMessage`. -/
def mkUserMessage (env : Env) (content : String) : Message :=
  { id := env.now, type := "user", content := content, timestamp := env.ts }

/-- An assistant (`"ai"`) `Message` as built by the hook. -/
def mkAiMessage (id : Nat) (content : String) (ts : String) : Message :=
  { id := id, type := "ai", content := content, timestamp := ts }

namespace UseConversation

/-- The synchronous phase of the hook's `sendMessage`: everything before the
first `await` — the empty-trim guard, the user-message append and
`setIsLoading(true)`. -/
def sendMessageSync (env : Env) (st : ConvState) (content : String) : ConvState :=
  if (jsTrim content).isEmpty then st
  else
    { st with
      messages := st.messages ++ [mkUserMessage env content]
      isLoading := true }

/-- The hook's `sendMessage(content, context, errors)` run to completion.
Result: the final state, the list of transport endpoints invoked, and
whether the `catch` branch (the apology append) executed. -/
def sendMessage (env : Env) (st : ConvState) (content : String) (o : FetchOutcome) :
    ConvState × List String × Bool :=
  if (jsTrim content).isEmpty then (st, [], false)
  else
    let st1 := sendMessageSync env st content
    match ConversationService.sendMessage content o with
    | .ok response =>
      ({ st1 with
          messages := st1.messages ++ [mkAiMessage (env.now + 1) response env.ts]
          isLoading := false },
        ["/chat"], false)
    | .error _ =>
      ({ st1 with
          messages := st1.messages ++ [mkAiMessage (env.now + 1) apologyText env.ts]
          isLoading := false },
        ["/chat"], true)

/-- The hook's `startConversation(context, errors)` run to completion: on a
normal return, history becomes the single welcome message and
`conversationMode` is set; on a thrown error only `finally` runs. -/
def startConversation (env : Env) (st : ConvState) (o : StartOutcome) : ConvState :=
  match ConversationService.startConversation o with
  | .ok welcomeMessage =>
    { messages := [mkAiMessage env.now welcomeMessage env.ts]
      isLoading := false
      conversationMode := true }
  | .error _ => { st with isLoading := false }

/-- The hook's `clearConversation()` run to completion: `setMessages([])`
both on normal return and in the `catch` branch. -/
def clearConversation (st : ConvState) (o : ClearOutcome) : ConvState :=
  match ConversationService.clearConversation o with
  | .ok _ => { st with messages := [] }
  | .error _ => { st with messages := [] }

end UseConversation

/-! ### Session Identity (`generateSessionId`) -/

/-- Decimal digit as a character, for the template interpolation of
`Date.now()`. -/
def digitChar (d : Nat) : Char :=
  match d with
  | 0 => '0' | 1 => '1' | 2 => '2' | 3 => '3' | 4 => '4'
  | 5 => '5' | 6 => '6' | 7 => '7' | 8 => '8' | _ => '9'

/-- Fuel-indexed decimal rendering of a natural number (most significant
digit first); `fuel > n` suffices. -/
def natDecAux : Nat → Nat → List Char
  | 0, _ => []
  | fuel + 1, n =>
    if n < 10 then [digitChar n]
    else natDecAux fuel (n / 10) ++ [digitChar (n % 10)]

/-- Decimal rendering of a natural number, as JS string interpolation of
`Date.now()` produces it. -/
def natDec (n : Nat) : List Char := natDecAux (n + 1) n

/-- JS `Math.random().toString(36)` on a draw in `[0, 1)`, the draw given by
its base-36 fraction digits with no trailing zeros: `"0"` for zero, else
`"0." ++ digits`. -/
def jsRandomToString36 : List Char → List Char
  | [] => ['0']
  | d :: ds => '0' :: '.' :: d :: ds

/-- JS `s.substr(start, len)` on a character list. -/
def substrC (s : List Char) (start len : Nat) : List Char := (s.drop start).take len

/-- The random suffix of `generateSessionId`:
`Math.random().toString(36).substr(2, 9)`. -/
def randSuffix (digits : List Char) : List Char := substrC (jsRandomToString36 digits) 2 9

/-- The `generateSessionId()` method: the template
`session_<Date.now()>_<random suffix>`, with the clock reading and the
random draw's base-36 fraction digits passed in as the observed
nondeterminism. -/
def generateSessionId (now : Nat) (digits : List Char) : String :=
  String.mk ("session_".data ++ natDec now ++ '_' :: randSuffix digits)

/-! ### Spec-side Fallback Responder (rule table, first match wins) -/

/-- Modelled from the spec's words for the refinement claim about the
Fallback Responder: the fixed ordered rule table
help/support, payment/billing, error/problem, feature/request, bug/issue. -/
def fallbackRules : List (List String × String) :=
  [(["help", "support"], supportText),
   (["payment", "billing"], paymentText),
   (["error", "problem"], errorText),
   (["feature", "request"], featureText),
   (["bug", "issue"], bugText)]

/-- Whether the lowercased message contains some keyword of a rule. -/
def matchesRule (message : String) (keywords : List String) : Bool :=
  keywords.any (fun k => jsIncludes (jsToLower message) k)

/-- First matching rule's text, scanning the table in order. -/
def firstMatchText : List (List String × String) → String → Option String
  | [], _ => none
  | (keywords, text) :: rest, message =>
    if matchesRule message keywords then some text else firstMatchText rest message

/-- Modelled from the spec's words (refinement reference, not source): the
Fallback Responder as case-insensitive first-match lookup in the fixed rule
table, generic acknowledgment when nothing matches. -/
def specFallback (message : String) : String :=
  (firstMatchText fallbackRules message).getD genericText

/-- Whether the message matches no keyword of the whole rule table. -/
def noKeyword (message : String) : Bool :=
  (fallbackRules.map Prod.fst).all (fun ks => !matchesRule message ks)

/-! ### Helper functions for the claims -/

/-- Whether the `/chat` transport attempt failed before a reply could be
extracted (network failure, non-success status, or malformed body). -/
def fetchFailed (o : FetchOutcome) : Bool :=
  match fetchChat o with
  | .ok _ => false
  | .error _ => true

/-- Whether the `/conversation/start` transport attempt failed. -/
def startFailed (o : StartOutcome) : Bool :=
  match fetchStart o with
  | .ok _ => false
  | .error _ => true

/-- The reply string the Transport Client's `sendMessage` actually delivers:
the extracted reply on success, the keyword fallback on any failure. -/
def serviceReplyText (message : String) (o : FetchOutcome) : String :=
  match fetchChat o with
  | .ok data => extractReply data
  | .error _ => ConversationService.getFallbackResponse message

/-- The welcome text the Transport Client's `startConversation` actually
delivers. -/
def startReplyText (o : StartOutcome) : String :=
  match fetchStart o with
  | .ok data => jsOrString data.welcome_message defaultGreeting
  | .error _ => defaultGreeting

/-- JS falsiness of an optional string: absent or empty. -/
def falsy (x : Option String) : Bool :=
  match x with
  | some s => s.isEmpty
  | none => true

/-- Numeric value of a decimal digit character. -/
def charVal (c : Char) : Nat := c.toNat - 48

/-- Value of a decimal digit string (most significant digit first). -/
def valOf (ds : List Char) : Nat :=
  List.foldl (fun acc c => 10 * acc + charVal c) 0 ds

/-! ## Helper lemmas -/

theorem service_sendMessage_eq (m : String) (o : FetchOutcome) :
    ConversationService.sendMessage m o = Except.ok (serviceReplyText m o) := by
  cases h : fetchChat o <;> simp [ConversationService.sendMessage, serviceReplyText, h]

theorem service_startConversation_eq (o : StartOutcome) :
    ConversationService.startConversation o = Except.ok (startReplyText o) := by
  cases h : fetchStart o <;> simp [ConversationService.startConversation, startReplyText, h]

theorem serviceReplyText_of_failure (m : String) (o : FetchOutcome)
    (hf : fetchFailed o = true) :
    serviceReplyText m o = ConversationService.getFallbackResponse m := by
  unfold fetchFailed at hf
  unfold serviceReplyText
  cases h : fetchChat o
  · rfl
  · rw [h] at hf; exact absurd hf (by simp)

theorem sendMessage_run (env : Env) (st : ConvState) (content : String) (o : FetchOutcome)
    (hc : (jsTrim content).isEmpty = false) :
    UseConversation.sendMessage env st content o
      = ({ st with
            messages := st.messages
              ++ [mkUserMessage env content,
                  mkAiMessage (env.now + 1) (serviceReplyText content o) env.ts]
            isLoading := false },
          ["/chat"], false) := by
  simp [UseConversation.sendMessage, UseConversation.sendMessageSync, hc,
    service_sendMessage_eq]

theorem digitChar_ne_underscore (d : Nat) : digitChar d ≠ '_' := by
  unfold digitChar
  split <;> decide

theorem charVal_digitChar : ∀ d < 10, charVal (digitChar d) = d := by decide

theorem natDecAux_ne_underscore : ∀ fuel n, '_' ∉ natDecAux fuel n := by
  intro fuel
  induction fuel with
  | zero => intro n; simp [natDecAux]
  | succ f ih =>
    intro n
    unfold natDecAux
    split
    · intro hmem
      simp at hmem
      exact digitChar_ne_underscore n hmem.symm
    · intro hmem
      rw [List.mem_append] at hmem
      rcases hmem with hmem | hmem
      · exact ih _ hmem
      · simp at hmem
        exact digitChar_ne_underscore _ hmem.symm

theorem valOf_natDecAux : ∀ fuel n, n < fuel → valOf (natDecAux fuel n) = n := by
  intro fuel
  induction fuel with
  | zero => intro n h; omega
  | succ f ih =>
    intro n h
    unfold natDecAux
    split
    · rename_i h10
      simp [valOf, List.foldl]
      exact charVal_digitChar n h10
    · rename_i h10
      have hdiv : n / 10 < f := by omega
      rw [valOf, List.foldl_append]
      have hv := ih (n / 10) hdiv
      rw [valOf] at hv
      simp [List.foldl, hv, charVal_digitChar (n % 10) (by omega)]
      omega

theorem valOf_natDec (n : Nat) : valOf (natDec n) = n :=
  valOf_natDecAux (n + 1) n (by omega)

theorem natDec_inj {a b : Nat} (h : natDec a = natDec b) : a = b := by
  rw [← valOf_natDec a, ← valOf_natDec b, h]

theorem natDec_ne_underscore (n : Nat) : '_' ∉ natDec n :=
  natDecAux_ne_underscore _ _

theorem append_underscore_inj :
    ∀ l₁ l₂ r₁ r₂ : List Char, '_' ∉ l₁ → '_' ∉ l₂ →
      l₁ ++ '_' :: r₁ = l₂ ++ '_' :: r₂ → l₁ = l₂ ∧ r₁ = r₂ := by
  intro l₁
  induction l₁ with
  | nil =>
    intro l₂ r₁ r₂ h₁ h₂ h
    cases l₂ with
    | nil => simpa using h
    | cons c t =>
      simp at h
      exact absurd h.1.symm (fun hc => h₂ (hc ▸ List.mem_cons_self c t))
  | cons a t ih =>
    intro l₂ r₁ r₂ h₁ h₂ h
    cases l₂ with
    | nil =>
      simp at h
      exact absurd h.1 (fun hc => h₁ (hc ▸ List.mem_cons_self a t))
    | cons c t₂ =>
      simp at h
      obtain ⟨hac, htail⟩ := h
      have ht := ih t₂ r₁ r₂ (fun hm => h₁ (List.mem_cons_of_mem a hm))
        (fun hm => h₂ (List.mem_cons_of_mem c hm)) htail
      exact ⟨by rw [hac, ht.1], ht.2⟩

theorem randSuffix_no_underscore (d : List Char) (hd : '_' ∉ d) :
    '_' ∉ randSuffix d := by
  cases d with
  | nil => simp [randSuffix, jsRandomToString36, substrC]
  | cons c ds =>
    simp only [randSuffix, jsRandomToString36, substrC, List.drop_succ_cons,
      List.drop_zero]
    intro hmem
    exact hd (List.mem_of_mem_take hmem)

theorem randSuffix_len (d : List Char) : (randSuffix d).length ≤ 9 :=
  List.length_take_le 9 _

/-! ## Claim theorems -/

/-- C1: for content with non-empty trim, starting from a non-loading state,
the hook's `sendMessage` appends exactly one user message in its synchronous
phase, and once settled the history has grown by exactly that user message
followed by exactly one assistant (`"ai"`) message, with `isLoading` false
again. -/
theorem sendMessage_appends_user_and_reply (env : Env) (st : ConvState)
    (content : String) (o : FetchOutcome)
    (hc : (jsTrim content).isEmpty = false) (_hl : st.isLoading = false) :
    (UseConversation.sendMessageSync env st content).messages
        = st.messages ++ [mkUserMessage env content]
    ∧ (UseConversation.sendMessage env st content o).1
        = { st with
            messages := st.messages
              ++ [mkUserMessage env content,
                  mkAiMessage (env.now + 1) (serviceReplyText content o) env.ts]
            isLoading := false } := by
  constructor
  · simp [UseConversation.sendMessageSync, hc]
  · rw [sendMessage_run env st content o hc]

/-- Witness for C1 at a concrete input (successful backend reply). -/
theorem sendMessage_appends_user_and_reply_witness :
    ((jsTrim "hello").isEmpty = false)
    ∧ (UseConversation.sendMessage ⟨7, "t"⟩ ⟨[], false, false⟩ "hello"
          (FetchOutcome.reply 200 (some ⟨some "Try restarting.", none⟩))).1
        = { messages :=
              [mkUserMessage ⟨7, "t"⟩ "hello", mkAiMessage 8 "Try restarting." "t"]
            isLoading := false
            conversationMode := false } := by
  have h := sendMessage_appends_user_and_reply ⟨7, "t"⟩ ⟨[], false, false⟩ "hello"
    (FetchOutcome.reply 200 (some ⟨some "Try restarting.", none⟩)) (by decide) rfl
  exact ⟨by decide, by simpa using h.2⟩

/-- C5: for content whose trim is empty, the hook's `sendMessage` returns the
state unchanged, invokes no transport endpoint, and never reaches the catch
branch. -/
theorem sendMessage_blank_noop (env : Env) (st : ConvState) (content : String)
    (o : FetchOutcome) (h : (jsTrim content).isEmpty = true) :
    UseConversation.sendMessage env st content o = (st, [], false) := by
  simp [UseConversation.sendMessage, h]

/-- Witness for C5 at a whitespace-only input. -/
theorem sendMessage_blank_noop_witness :
    ((jsTrim "   ").isEmpty = true)
    ∧ UseConversation.sendMessage ⟨7, "t"⟩ ⟨[], true, true⟩ "   " FetchOutcome.netFail
        = (⟨[], true, true⟩, [], false) :=
  ⟨by decide, sendMessage_blank_noop ⟨7, "t"⟩ ⟨[], true, true⟩ "   "
    FetchOutcome.netFail (by decide)⟩

/-- C2 counterexample: on HTTP status 500 the Transport Client's
`sendMessage` does not fail toward its caller — it returns normally with the
keyword fallback, not `Except.error (TransportError.http 500)`. -/
theorem service_sendMessage_http_cex :
    ConversationService.sendMessage "hi" (FetchOutcome.reply 500 none)
        = Except.ok (ConversationService.getFallbackResponse "hi")
    ∧ (Except.ok (ConversationService.getFallbackResponse "hi")
          : Except TransportError String)
        ≠ Except.error (TransportError.http 500) :=
  ⟨rfl, fun h => Except.noConfusion h⟩

/-- C2 amended: on every HTTP status outside the success range, the internal
`HTTP error` throw is caught in the same method, and the caller receives a
normal return carrying `getFallbackResponse(message)`. -/
theorem service_sendMessage_http_returns_fallback (m : String) (status : Nat)
    (body : Option ChatBody) (h : statusOk status = false) :
    ConversationService.sendMessage m (FetchOutcome.reply status body)
      = Except.ok (ConversationService.getFallbackResponse m) := by
  simp [ConversationService.sendMessage, fetchChat, h]

/-- Witness for amended C2 at status 500. -/
theorem service_sendMessage_http_returns_fallback_witness :
    (statusOk 500 = false)
    ∧ ConversationService.sendMessage "where is my order"
          (FetchOutcome.reply 500 (some ⟨some "ignored", none⟩))
        = Except.ok (ConversationService.getFallbackResponse "where is my order") :=
  ⟨by decide, service_sendMessage_http_returns_fallback "where is my order" 500
    (some ⟨some "ignored", none⟩) (by decide)⟩

/-- C3 counterexample: with the transport failing at the network level, the
assistant message appended for `"hello"` is the Fallback Responder's generic
acknowledgment, not the fixed apology text. -/
theorem sendMessage_failure_apology_cex :
    ((UseConversation.sendMessage ⟨7, "t"⟩ ⟨[], false, false⟩ "hello"
          FetchOutcome.netFail).1.messages.map Message.content
        = ["hello", genericText])
    ∧ genericText ≠ apologyText :=
  ⟨rfl, by decide⟩

/-- C3 amended: when the underlying `/chat` transport fails (network error,
non-success status, or malformed body), the hook appends
`getFallbackResponse(content)` as the assistant message; the apology branch
would require the Transport Client itself to throw, which it never does. -/
theorem sendMessage_failure_appends_keyword_fallback (env : Env) (st : ConvState)
    (content : String) (o : FetchOutcome)
    (hc : (jsTrim content).isEmpty = false) (hf : fetchFailed o = true) :
    (UseConversation.sendMessage env st content o).1.messages
      = st.messages
          ++ [mkUserMessage env content,
              mkAiMessage (env.now + 1)
                (ConversationService.getFallbackResponse content) env.ts] := by
  rw [sendMessage_run env st content o hc]
  simp [serviceReplyText_of_failure content o hf]

/-- Witness for amended C3 at a concrete network failure. -/
theorem sendMessage_failure_appends_keyword_fallback_witness :
    ((jsTrim "hello").isEmpty = false)
    ∧ (fetchFailed FetchOutcome.netFail = true)
    ∧ (UseConversation.sendMessage ⟨7, "t"⟩ ⟨[], false, false⟩ "hello"
          FetchOutcome.netFail).1.messages
        = [mkUserMessage ⟨7, "t"⟩ "hello",
           mkAiMessage 8 (ConversationService.getFallbackResponse "hello") "t"] := by
  have h := sendMessage_failure_appends_keyword_fallback ⟨7, "t"⟩ ⟨[], false, false⟩
    "hello" FetchOutcome.netFail (by decide) rfl
  exact ⟨by decide, rfl, by simpa using h⟩

/-- C6: for every prior state and every outcome of the remote clear call
(success with any status, or network failure), the hook's `clearConversation`
ends with an empty local message sequence. -/
theorem clearConversation_empties (st : ConvState) (o : ClearOutcome) :
    (UseConversation.clearConversation st o).messages = [] := by
  cases o <;> rfl

/-- C7: for every prior state and every outcome of the remote start call,
the hook's `startConversation` replaces the history with exactly one
assistant message holding the delivered welcome text, sets
`conversationMode`, and clears `isLoading`; when the remote call fails the
welcome text is the fixed default greeting. -/
theorem startConversation_single_welcome (env : Env) (st : ConvState)
    (o : StartOutcome) :
    UseConversation.startConversation env st o
        = { messages := [mkAiMessage env.now (startReplyText o) env.ts]
            isLoading := false
            conversationMode := true }
    ∧ (startFailed o = true → startReplyText o = defaultGreeting) := by
  constructor
  · simp [UseConversation.startConversation, service_startConversation_eq]
  · intro hf
    unfold startFailed at hf
    unfold startReplyText
    cases h : fetchStart o
    · rfl
    · rw [h] at hf; exact absurd hf (by simp)

/-- Witness for C7 at a failing remote start call. -/
theorem startConversation_single_welcome_witness :
    UseConversation.startConversation ⟨7, "t"⟩ ⟨[], true, false⟩ StartOutcome.netFail
      = { messages := [mkAiMessage 7 defaultGreeting "t"]
          isLoading := false
          conversationMode := true } := by
  have h := startConversation_single_welcome ⟨7, "t"⟩ ⟨[], true, false⟩
    StartOutcome.netFail
  rw [h.1, h.2 rfl]

/-- C10: the Transport Client's `sendMessage` is total toward its caller —
it always returns normally with a string; on every transport failure that
string is exactly `getFallbackResponse(message)`; and the hook's catch
branch (the apology append) never executes. -/
theorem service_sendMessage_total (m : String) (o : FetchOutcome) (env : Env)
    (st : ConvState) :
    ConversationService.sendMessage m o = Except.ok (serviceReplyText m o)
    ∧ (fetchFailed o = true →
        serviceReplyText m o = ConversationService.getFallbackResponse m)
    ∧ (UseConversation.sendMessage env st m o).2.2 = false := by
  refine ⟨service_sendMessage_eq m o, serviceReplyText_of_failure m o, ?_⟩
  cases hc : (jsTrim m).isEmpty
  · rw [sendMessage_run env st m o hc]
  · simp [UseConversation.sendMessage, hc]

/-- Witness for C10 at a concrete network failure. -/
theorem service_sendMessage_total_witness :
    ConversationService.sendMessage "hi" FetchOutcome.netFail
        = Except.ok (ConversationService.getFallbackResponse "hi")
    ∧ (UseConversation.sendMessage ⟨7, "t"⟩ ⟨[], false, false⟩ "hi"
          FetchOutcome.netFail).2.2 = false := by
  have h := service_sendMessage_total "hi" FetchOutcome.netFail ⟨7, "t"⟩
    ⟨[], false, false⟩
  exact ⟨(h.2.1 rfl) ▸ h.1, h.2.2⟩

/-- C4 counterexample: an input containing "billing" that also contains the
earlier keyword "help" yields the support text, not the payment-troubleshoot
text. -/
theorem getFallbackResponse_billing_cex :
    jsIncludes (jsToLower "please help me with billing") "billing" = true
    ∧ ConversationService.getFallbackResponse "please help me with billing"
        = supportText
    ∧ supportText ≠ paymentText :=
  ⟨rfl, rfl, by decide⟩

/-- C4 amended: the Fallback Responder equals first-match lookup in the fixed
ordered rule table; an input containing "billing" (any case) and no keyword
of the earlier help/support rule yields the payment-troubleshoot text; an
input matching no keyword yields the generic acknowledgment. -/
theorem getFallbackResponse_rules (m : String) :
    ConversationService.getFallbackResponse m = specFallback m
    ∧ (jsIncludes (jsToLower m) "billing" = true →
        jsIncludes (jsToLower m) "help" = false →
        jsIncludes (jsToLower m) "support" = false →
        ConversationService.getFallbackResponse m = paymentText)
    ∧ (noKeyword m = true →
        ConversationService.getFallbackResponse m = genericText) := by
  refine ⟨?_, ?_, ?_⟩
  · simp only [ConversationService.getFallbackResponse, specFallback, fallbackRules,
      firstMatchText, matchesRule, List.any_cons, List.any_nil, Bool.or_false]
    split_ifs <;> rfl
  · intro hb hh hs
    simp [ConversationService.getFallbackResponse, hb, hh, hs]
  · intro hnk
    simp only [noKeyword, fallbackRules, matchesRule, List.map_cons, List.map_nil,
      List.all_cons, List.all_nil, List.any_cons, List.any_nil, Bool.or_false,
      Bool.and_true, Bool.and_eq_true, Bool.not_eq_eq_eq_not, Bool.not_true,
      Bool.or_eq_false_iff] at hnk
    obtain ⟨⟨h1, h2⟩, ⟨h3, h4⟩, ⟨h5, h6⟩, ⟨h7, h8⟩, h9, h10⟩ := hnk
    simp [ConversationService.getFallbackResponse, h1, h2, h3, h4, h5, h6, h7, h8,
      h9, h10]

/-- Witness for amended C4: a capitalised billing message with no earlier
keyword yields the payment text, and a keyword-free message the generic
text. -/
theorem getFallbackResponse_rules_witness :
    ConversationService.getFallbackResponse "BILLING question" = paymentText
    ∧ ConversationService.getFallbackResponse "hello there" = genericText := by
  have h₁ := getFallbackResponse_rules "BILLING question"
  have h₂ := getFallbackResponse_rules "hello there"
  exact ⟨h₁.2.1 rfl rfl rfl, h₂.2.2 (by rfl)⟩

/-- C9 counterexample: for a body whose `response` field is present but
empty and whose `message` field is absent, `sendMessage` returns the fixed
"could not process" string even though `response` is not absent — the
fallbacks fire on falsy fields, not only on absent ones. -/
theorem extractReply_falsy_cex :
    extractReply ⟨some "", none⟩ = couldNotProcessText
    ∧ (ChatBody.mk (some "") none).response ≠ none :=
  ⟨rfl, by decide⟩

/-- C9 amended: on a successful body, the reply is the `response` field when
present and non-empty, else the `message` field when present and non-empty,
else the fixed "could not process" string (exactly when both fields are
absent or empty). -/
theorem extractReply_spec (b : ChatBody) :
    (falsy b.response = false → extractReply b = b.response.getD "")
    ∧ (falsy b.response = true → falsy b.message = false →
        extractReply b = b.message.getD "")
    ∧ (falsy b.response = true → falsy b.message = true →
        extractReply b = couldNotProcessText) := by
  obtain ⟨r, m⟩ := b
  refine ⟨?_, ?_, ?_⟩ <;>
    cases r <;> cases m <;>
      simp [extractReply, jsOrString, falsy] <;>
        (intro h; simp [h]) <;> (intro h2; simp [h2])

/-- Witness for amended C9: a present non-empty `response` field is returned
as is. -/
theorem extractReply_spec_witness :
    extractReply ⟨some "Try restarting.", some "z"⟩ = "Try restarting." := by
  have h := extractReply_spec ⟨some "Try restarting.", some "z"⟩
  simpa using h.1 (by decide)

/-- C8 counterexample: when the random draw is 0.5 — whose base-36 rendering
is `"0.i"` — the suffix taken by `substr(2, 9)` is the single character `i`,
so the generated id's random suffix has fewer than 9 characters. -/
theorem generateSessionId_short_suffix_cex :
    generateSessionId 1700000000000 ['i'] = "session_1700000000000_i"
    ∧ (randSuffix ['i']).length = 1 :=
  ⟨by decide, rfl⟩

/-- C8 amended: every generated id has the exact form
`session_<decimal timestamp>_<suffix>` where the suffix is the first at most
9 base-36 fraction digits of the random draw; two calls whose observed
timestamps or truncated suffixes differ yield distinct ids (so consecutive
calls are distinct whenever their draws differ that way, but nothing rules
out a repeated draw). -/
theorem generateSessionId_spec (n₁ n₂ : Nat) (d₁ d₂ : List Char) :
    (generateSessionId n₁ d₁).data
        = "session_".data ++ natDec n₁ ++ '_' :: randSuffix d₁
    ∧ (randSuffix d₁).length ≤ 9
    ∧ (generateSessionId n₁ d₁ = generateSessionId n₂ d₂ →
        n₁ = n₂ ∧ randSuffix d₁ = randSuffix d₂) := by
  refine ⟨rfl, randSuffix_len d₁, fun h => ?_⟩
  unfold generateSessionId at h
  injection h with h
  rw [List.append_assoc, List.append_assoc] at h
  have h' := List.append_cancel_left h
  have hsplit := append_underscore_inj (natDec n₁) (natDec n₂)
    (randSuffix d₁) (randSuffix d₂)
    (natDec_ne_underscore n₁) (natDec_ne_underscore n₂) h'
  exact ⟨natDec_inj hsplit.1, hsplit.2⟩

/-- Witness for amended C8 at concrete draws: distinct timestamps give
distinct ids. -/
theorem generateSessionId_spec_witness :
    (generateSessionId 12 ['a', 'b']).data
        = "session_".data ++ natDec 12 ++ '_' :: randSuffix ['a', 'b']
    ∧ (randSuffix ['a', 'b']).length ≤ 9
    ∧ generateSessionId 12 ['a', 'b'] ≠ generateSessionId 3 ['a', 'b'] := by
  have h := generateSessionId_spec 12 3 ['a', 'b'] ['a', 'b']
  exact ⟨h.1, h.2.1, fun he => by simpa using (h.2.2 he).1⟩

end GeicueWidget
